import Mathlib

/-!
Shallow embedding of the `dts` command-line lookup tool (`src/index.ts`).

The repository configures an external suggestion engine with a datum
tokenizer, a query tokenizer (which writes the raw query into a mutable
closure variable), an identity function and a sort comparator, then exposes
`searchForTypes` and a CLI `main`.  The functions below translate those
pieces; parts of the engine itself (retrieval, load, the search pipeline)
are not in the repository and are modelled from the specification, each
marked `Modelled from the spec:` in its doc comment.
-/

/-- The prefetched datum of the search index (`MinifiedSearchRecord` in the
source): `t` = types package name, `g` = globals, `m` = modules,
`p` = project URL, `l` = library name, `d` = downloads in the last month. -/
structure MinifiedSearchRecord where
  t : String
  g : List String
  m : List String
  p : String
  l : String
  d : Int
deriving DecidableEq, Repr

/-- The condition repeated in the source's sorter:
`x.t === query || x.t === (query + "js") || x.t === (query + ".js") || x.t === (query + "-js")`.
This is the spec's `exactForms` membership test. -/
def isExactForm (query : String) (t : String) : Bool :=
  t == query || t == (query ++ "js") || t == (query ++ ".js") || t == (query ++ "-js")

/-- The source's `sorter` comparator (`src/index.ts` lines 34-46), with the
mutable `query` closure variable passed explicitly. -/
def sorter (query : String) (x y : MinifiedSearchRecord) : Int :=
  if isExactForm query x.t then -1
  else if isExactForm query y.t then 1
  else y.d - x.d

/-- The source's `datumTokenizer` (`src/index.ts` lines 26-28):
`[entry.l, entry.p, entry.t].concat(entry.g).concat(entry.m)`. -/
def datumTokenizer (entry : MinifiedSearchRecord) : List String :=
  [entry.l, entry.p, entry.t] ++ entry.g ++ entry.m

/-- The engine state of `createEngine`: the mutable closure variable
`let query = ""` that the query tokenizer writes and the sorter reads. -/
structure EngineState where
  query : String
deriving DecidableEq, Repr

/-- The token list the source's `queryTokenizer` returns: `[input]`. -/
def queryTokens (input : String) : List String :=
  [input]

/-- The source's `queryTokenizer` (`src/index.ts` lines 29-32): it assigns
`query = input` (modelled as producing the new engine state) and returns
`[input]`. -/
def queryTokenizer (_st : EngineState) (input : String) : EngineState × List String :=
  ({ query := input }, queryTokens input)

/-- The source's `identify` option: `(e) => e.t`. -/
def identify (e : MinifiedSearchRecord) : String :=
  e.t

/-- The Record Store: the immutable record collection held by the engine. -/
structure Store where
  records : List MinifiedSearchRecord
deriving DecidableEq, Repr

/-- Modelled from the spec: the engine's retrieval for one query token, which
lives in the external library, "returns all records whose token set contains
it" by exact token membership (no substring or prefix matching). -/
def retrieveByToken (records : List MinifiedSearchRecord) (tok : String) :
    List MinifiedSearchRecord :=
  records.filter (fun r => (datumTokenizer r).contains tok)

/-- Modelled from the spec: the Record Store's `query(term)` operation, which
lives in the external library: it tokenizes `term` with the configured query
tokenizer and returns the records whose token set contains a query token. -/
def Store.query (s : Store) (term : String) : List MinifiedSearchRecord :=
  (queryTokens term).foldl (fun acc tok => acc ++ retrieveByToken s.records tok) []

/-- Insertion of one element into a list sorted by the boolean relation `le`. -/
def insertSorted {α : Type} (le : α → α → Bool) (a : α) :
    List α → List α
  | [] => [a]
  | b :: bs => if le a b then a :: b :: bs else b :: insertSorted le a bs

/-- Stable insertion sort by a boolean relation, a concretization of the
engine's comparator sort (the spec leaves ties implementation-defined). -/
def sortWith {α : Type} (le : α → α → Bool) : List α → List α
  | [] => []
  | a :: as => insertSorted le a (sortWith le as)

/-- Modelled from the spec: the Ranker's
`rank(queryTerm, matches) -> ordered sequence`, which sorts the matches with
the configured comparator; the sort algorithm itself is in the external
library and is concretized here as a stable insertion sort. -/
def rank (queryTerm : String) (ms : List MinifiedSearchRecord) :
    List MinifiedSearchRecord :=
  sortWith (fun x y => decide (sorter queryTerm x y ≤ 0)) ms

/-- The load error taxonomy of the spec. -/
inductive LoadError where
  | InvalidInputError
deriving DecidableEq, Repr

/-- Modelled from the spec: `load(records) -> Store`, which lives in the
external library (the source only supplies `identify = (e) => e.t`): it
"fails with `InvalidInputError` if any two records share the same
`typesPackageName`", and otherwise constructs the store. -/
def load (records : List MinifiedSearchRecord) : Except LoadError Store :=
  if (records.map fun r => r.t).Nodup then .ok ⟨records⟩
  else .error .InvalidInputError

/-- Modelled from the spec: the engine's `search`, composed as
`rank(queryTerm, store.query(queryTerm))`; the query tokenizer first
overwrites the mutable `query` state, and the sorter then reads that state. -/
def engineSearch (s : Store) (st : EngineState) (term : String) :
    EngineState × List MinifiedSearchRecord :=
  let st1 := (queryTokenizer st term).1
  let ms :=
    ((queryTokenizer st term).2).foldl
      (fun acc tok => acc ++ retrieveByToken s.records tok) []
  (st1, rank st1.query ms)

/-- The source's `searchForTypes` (`src/index.ts` lines 50-65): it searches
the engine and maps each result `x` to
`{ packageName: "@types/" + x.t, url: x.p }`. -/
def searchForTypes (s : Store) (st : EngineState) (searchTerm : String) :
    List (String × String) :=
  ((engineSearch s st searchTerm).2).map (fun x => ("@types/" ++ x.t, x.p))

/-- The observable actions of `main`, in order. -/
inductive MainAction where
  | warn (msg : String)
  | searchCall (term : Option String)
deriving DecidableEq, Repr

/-- The source's `main` (`src/index.ts` lines 67-77) as its trace of actions:
`const [searchTerm] = process.argv.slice(2)` takes the first CLI argument
(possibly absent); if it is falsy (`!searchTerm`: absent or the empty
string) a warning is printed; then `searchForTypes(searchTerm)` is called
unconditionally. -/
def mainTrace (args : List String) : List MainAction :=
  let searchTerm := args.head?
  (if searchTerm == none || searchTerm == some "" then
    [MainAction.warn "No search term found!"]
  else []) ++ [MainAction.searchCall searchTerm]

/-- C1: if `x.typesPackageName` is in `exactForms` for query `q` and
`y.typesPackageName` is not, the comparator places `x` strictly before `y`
(negative one way, positive the other), whatever the download counts. -/
theorem sorter_exact_match_first (q : String) (x y : MinifiedSearchRecord)
    (hx : isExactForm q x.t = true) (hy : isExactForm q y.t = false) :
    sorter q x y < 0 ∧ sorter q y x > 0 := by
  constructor
  · simp [sorter, hx]
  · simp [sorter, hx, hy]

/-- Witness for C1 at query `"lodash"`, records `lodash` (100 downloads) and
`underscore` (100000 downloads). -/
theorem sorter_exact_match_first_witness :
    sorter "lodash" ⟨"lodash", [], [], "u", "lodash", 100⟩
        ⟨"underscore", [], [], "u", "underscore", 100000⟩ < 0 ∧
    sorter "lodash" ⟨"underscore", [], [], "u", "underscore", 100000⟩
        ⟨"lodash", [], [], "u", "lodash", 100⟩ > 0 :=
  sorter_exact_match_first "lodash" _ _ (by decide) (by decide)

/-- C2 counterexample: with query `"a"`, records `a` (1 download) and `ajs`
(100 downloads) are both in `exactForms`, yet the comparator returns a
negative value in both argument orders, so it does not order them by
`monthlyDownloads` descending (the 100-download record is never placed
first). -/
theorem sorter_both_exact_ignores_downloads :
    isExactForm "a" "a" = true ∧ isExactForm "a" "ajs" = true ∧
    ((1 : Int) < 100) ∧
    sorter "a" ⟨"a", [], [], "", "", 1⟩ ⟨"ajs", [], [], "", "", 100⟩ < 0 ∧
    sorter "a" ⟨"ajs", [], [], "", "", 100⟩ ⟨"a", [], [], "", "", 1⟩ < 0 := by
  decide

/-- C2 amended: when neither record's `typesPackageName` is in `exactForms`,
the comparator orders by `monthlyDownloads` descending; but when both are in
`exactForms` it returns `-1` unconditionally (its first argument is placed
first), regardless of the download counts. -/
theorem sorter_downloads_descending_amended (q : String)
    (x y : MinifiedSearchRecord)
    (h : isExactForm q x.t = isExactForm q y.t) :
    (isExactForm q x.t = false →
      sorter q x y = y.d - x.d ∧ (sorter q x y < 0 ↔ y.d < x.d)) ∧
    (isExactForm q x.t = true → sorter q x y = -1) := by
  constructor
  · intro hx
    rw [hx] at h
    have e : sorter q x y = y.d - x.d := by simp [sorter, hx, ← h]
    exact ⟨e, by rw [e]; omega⟩
  · intro hx
    simp [sorter, hx]

/-- Witness for C2 amended at the spec's example: query `"baz"`, records
`foo` (10 downloads) and `bar` (50 downloads), neither in `exactForms`. -/
theorem sorter_downloads_descending_amended_witness :
    (isExactForm "baz" (MinifiedSearchRecord.t ⟨"foo", [], [], "", "", 10⟩) = false →
      sorter "baz" ⟨"foo", [], [], "", "", 10⟩ ⟨"bar", [], [], "", "", 50⟩ =
          (MinifiedSearchRecord.d ⟨"bar", [], [], "", "", 50⟩) -
            (MinifiedSearchRecord.d ⟨"foo", [], [], "", "", 10⟩) ∧
        (sorter "baz" ⟨"foo", [], [], "", "", 10⟩ ⟨"bar", [], [], "", "", 50⟩ < 0 ↔
          (MinifiedSearchRecord.d ⟨"bar", [], [], "", "", 50⟩) <
            (MinifiedSearchRecord.d ⟨"foo", [], [], "", "", 10⟩))) ∧
    (isExactForm "baz" (MinifiedSearchRecord.t ⟨"foo", [], [], "", "", 10⟩) = true →
      sorter "baz" ⟨"foo", [], [], "", "", 10⟩ ⟨"bar", [], [], "", "", 50⟩ = -1) :=
  sorter_downloads_descending_amended "baz" _ _ (by decide)

/-- C3 counterexample: with query `"a"` and a record whose
`typesPackageName` is `"a"` (hence in `exactForms`), the comparator applied
to the record and itself returns `-1`, not `0`, so the comparator is not
reflexively zero. -/
theorem sorter_not_reflexive_zero :
    sorter "a" ⟨"a", [], [], "", "", 0⟩ ⟨"a", [], [], "", "", 0⟩ = -1 ∧
    sorter "a" ⟨"a", [], [], "", "", 0⟩ ⟨"a", [], [], "", "", 0⟩ ≠ 0 := by
  decide

/-- C3 amended: the comparator is antisymmetric on every pair of records of
which at most one has its `typesPackageName` in `exactForms`, and is
reflexively zero on every record whose `typesPackageName` is not in
`exactForms`; when both arguments' names are in `exactForms` (including a
record against itself) it returns `-1` in both orders. -/
theorem sorter_total_order_amended (q : String)
    (x y z w : MinifiedSearchRecord)
    (hxy : ¬(isExactForm q x.t = true ∧ isExactForm q y.t = true))
    (hz : isExactForm q z.t = false)
    (hw : isExactForm q w.t = true) :
    ((sorter q x y < 0 ↔ sorter q y x > 0) ∧
      (sorter q x y = 0 ↔ sorter q y x = 0)) ∧
    sorter q z z = 0 ∧
    sorter q w w = -1 := by
  refine ⟨?_, by simp [sorter, hz], by simp [sorter, hw]⟩
  cases hx : isExactForm q x.t <;> cases hy : isExactForm q y.t
  · have e1 : sorter q x y = y.d - x.d := by simp [sorter, hx, hy]
    have e2 : sorter q y x = x.d - y.d := by simp [sorter, hx, hy]
    rw [e1, e2]
    constructor <;> omega
  · have e1 : sorter q x y = 1 := by simp [sorter, hx, hy]
    have e2 : sorter q y x = -1 := by simp [sorter, hx, hy]
    rw [e1, e2]
    constructor <;> omega
  · have e1 : sorter q x y = -1 := by simp [sorter, hx]
    have e2 : sorter q y x = 1 := by simp [sorter, hx, hy]
    rw [e1, e2]
    constructor <;> omega
  · exact absurd ⟨hx, hy⟩ hxy

/-- Witness for C3 amended at query `"a"`: `x` has name `"a"` (in
`exactForms`), `y` and `z` have name `"b"` (not in `exactForms`), `w` has
name `"ajs"` (in `exactForms`). -/
theorem sorter_total_order_amended_witness :
    ((sorter "a" ⟨"a", [], [], "", "", 3⟩ ⟨"b", [], [], "", "", 7⟩ < 0 ↔
        sorter "a" ⟨"b", [], [], "", "", 7⟩ ⟨"a", [], [], "", "", 3⟩ > 0) ∧
      (sorter "a" ⟨"a", [], [], "", "", 3⟩ ⟨"b", [], [], "", "", 7⟩ = 0 ↔
        sorter "a" ⟨"b", [], [], "", "", 7⟩ ⟨"a", [], [], "", "", 3⟩ = 0)) ∧
    sorter "a" ⟨"b", [], [], "", "", 7⟩ ⟨"b", [], [], "", "", 7⟩ = 0 ∧
    sorter "a" ⟨"ajs", [], [], "", "", 5⟩ ⟨"ajs", [], [], "", "", 5⟩ = -1 :=
  sorter_total_order_amended "a" _ _ _ _ (by decide) (by decide) (by decide)

/-- C4 counterexample: the datum tokenizer of the source includes
`entry.p` (the project URL), so the token set is not
`{libraryName, typesPackageName} ∪ globals ∪ modules`: for a record with
project URL `"https://proj"` that string is a token but is not in the
claimed set. -/
theorem datumTokenizer_includes_projectUrl :
    "https://proj" ∈ datumTokenizer ⟨"pkg", ["glob"], ["mod"], "https://proj", "lib", 0⟩ ∧
    "https://proj" ∉ (["lib", "pkg"] ++ ["glob"] ++ ["mod"] : List String) := by
  decide

/-- C4 amended: the tokenization of a record returns exactly the set
`{libraryName, projectUrl, typesPackageName} ∪ globals ∪ modules` — the
project URL does contribute a token — and each field value is a single
opaque token (membership is whole-string equality, no internal splitting). -/
theorem datumTokenizer_token_set_amended (r : MinifiedSearchRecord)
    (s : String) :
    s ∈ datumTokenizer r ↔
      s = r.l ∨ s = r.p ∨ s = r.t ∨ s ∈ r.g ∨ s ∈ r.m := by
  simp [datumTokenizer]

/-- C5: for a store loaded from records with unique `typesPackageName`
values, the query tokenizer tokenizes a term as the single token consisting
of the term itself, and `query(t)` returns exactly the records whose token
set contains `t` by exact token equality (no substring or prefix
matching). -/
theorem query_exact_token_membership (records : List MinifiedSearchRecord)
    (hnd : (records.map fun r => r.t).Nodup)
    (s : Store) (hs : load records = .ok s)
    (t : String) (r : MinifiedSearchRecord) :
    (∀ st : EngineState, (queryTokenizer st t).2 = [t]) ∧
    (r ∈ s.query t ↔ r ∈ records ∧ t ∈ datumTokenizer r) := by
  have hrec : s.records = records := by
    unfold load at hs
    rw [if_pos hnd] at hs
    cases hs
    rfl
  refine ⟨fun st => rfl, ?_⟩
  simp [Store.query, queryTokens, retrieveByToken, hrec, List.mem_filter,
    and_comm]

/-- Witness for C5 at a one-record store and the term `"lib"`, a token of
the record via its `libraryName`. -/
theorem query_exact_token_membership_witness :
    (∀ st : EngineState, (queryTokenizer st "lib").2 = ["lib"]) ∧
    ((⟨"pkg", ["glob"], ["mod"], "proj", "lib", 5⟩ : MinifiedSearchRecord) ∈
        (Store.mk [⟨"pkg", ["glob"], ["mod"], "proj", "lib", 5⟩]).query "lib" ↔
      (⟨"pkg", ["glob"], ["mod"], "proj", "lib", 5⟩ : MinifiedSearchRecord) ∈
          [(⟨"pkg", ["glob"], ["mod"], "proj", "lib", 5⟩ : MinifiedSearchRecord)] ∧
        "lib" ∈ datumTokenizer ⟨"pkg", ["glob"], ["mod"], "proj", "lib", 5⟩) :=
  query_exact_token_membership
    [⟨"pkg", ["glob"], ["mod"], "proj", "lib", 5⟩] (by decide)
    ⟨[⟨"pkg", ["glob"], ["mod"], "proj", "lib", 5⟩]⟩ (by rfl) "lib" _

/-- C6: `search(t)` is `rank(t, store.query(t))` projected element-wise, in
order, to pairs whose first component is `"@types/"` concatenated with the
record's `typesPackageName` and whose second component is the record's
`projectUrl`, for every prior engine state. -/
theorem searchForTypes_composition (s : Store) (st : EngineState)
    (t : String) :
    searchForTypes s st t =
      (rank t (s.query t)).map (fun x => ("@types/" ++ x.t, x.p)) :=
  rfl

/-- C7: when two distinct positions of the record sequence hold records with
the same `typesPackageName`, `load` fails with `InvalidInputError` and no
store is constructed. -/
theorem load_duplicate_key_fails (records : List MinifiedSearchRecord)
    (i j : Fin records.length) (hij : i ≠ j)
    (ht : (records.get i).t = (records.get j).t) :
    load records = .error .InvalidInputError ∧
      ∀ s : Store, load records ≠ .ok s := by
  have hnd : ¬ (records.map fun r => r.t).Nodup := by
    intro hnodup
    have hi : i.val < (records.map fun r => r.t).length := by
      simp
    have hj : j.val < (records.map fun r => r.t).length := by
      simp
    have hgeq : (records.map fun r => r.t).get ⟨i.val, hi⟩ =
        (records.map fun r => r.t).get ⟨j.val, hj⟩ := by
      simpa using ht
    have heq := (List.Nodup.get_inj_iff hnodup).mp hgeq
    exact hij (Fin.ext (by simpa using congrArg Fin.val heq))
  have e : load records = .error .InvalidInputError := by
    unfold load
    rw [if_neg hnd]
  refine ⟨e, fun s hs => ?_⟩
  rw [e] at hs
  cases hs

/-- Witness for C7 on two records sharing the `typesPackageName` `"dup"`. -/
theorem load_duplicate_key_fails_witness :
    load [⟨"dup", [], [], "p1", "l1", 1⟩, ⟨"dup", [], [], "p2", "l2", 2⟩] =
        .error .InvalidInputError ∧
      ∀ s : Store,
        load [⟨"dup", [], [], "p1", "l1", 1⟩, ⟨"dup", [], [], "p2", "l2", 2⟩] ≠
          .ok s :=
  load_duplicate_key_fails
    [⟨"dup", [], [], "p1", "l1", 1⟩, ⟨"dup", [], [], "p2", "l2", 2⟩]
    ⟨0, by decide⟩ ⟨1, by decide⟩ (by decide) (by decide)

/-- C8: a query term that is a token of no record of the store yields the
empty sequence (not an error), and `rank` on the empty sequence yields the
empty sequence. -/
theorem query_no_match_empty (s : Store) (t : String)
    (h : ∀ r ∈ s.records, t ∉ datumTokenizer r) :
    s.query t = [] ∧ rank t [] = [] := by
  refine ⟨?_, rfl⟩
  simp only [Store.query, queryTokens, List.foldl_cons, List.foldl_nil,
    List.nil_append, retrieveByToken, List.filter_eq_nil_iff]
  intro r hr
  simp [h r hr]

/-- Witness for C8: the term `"doesnotexist"` matches nothing in a
non-empty store. -/
theorem query_no_match_empty_witness :
    (Store.mk [⟨"pkg", ["glob"], ["mod"], "proj", "lib", 5⟩]).query
        "doesnotexist" = [] ∧
      rank "doesnotexist" [] = [] :=
  query_no_match_empty ⟨[⟨"pkg", ["glob"], ["mod"], "proj", "lib", 5⟩]⟩
    "doesnotexist" (by decide)

/-- C9: the search pipeline is pure and deterministic — its result is
independent of the engine's prior mutable `query` state (the query
tokenizer overwrites that state with the current term before the sorter
reads it), the state after a search holds exactly the current term, and the
returned sequence is `rank` of the store's `query` result. -/
theorem engineSearch_pure_state_independent (s : Store)
    (st st' : EngineState) (t : String) :
    engineSearch s st t = engineSearch s st' t ∧
    (engineSearch s st t).1.query = t ∧
    (engineSearch s st t).2 = rank t (s.query t) :=
  ⟨rfl, rfl, rfl⟩

/-- C10 counterexample: with no CLI argument, `main` prints the warning but
then still calls `searchForTypes` with the missing term — a search is
performed, contradicting the claim that no Record Store interaction is
attempted. -/
theorem main_searches_despite_missing_term :
    mainTrace [] = [MainAction.warn "No search term found!",
      MainAction.searchCall none] ∧
    MainAction.searchCall none ∈ mainTrace [] := by
  decide

/-- C10 amended: when no query term is supplied, the caller-input warning is
reported before any Record Store interaction, but the search is
nevertheless still performed with the missing term. -/
theorem main_warns_but_still_searches (args : List String)
    (h : args.head? = none) :
    mainTrace args = [MainAction.warn "No search term found!",
      MainAction.searchCall none] := by
  simp [mainTrace, h]

/-- Witness for C10 amended at the empty argument list. -/
theorem main_warns_but_still_searches_witness :
    mainTrace [] = [MainAction.warn "No search term found!",
      MainAction.searchCall none] :=
  main_warns_but_still_searches [] (by rfl)
